import Mathlib

/-!
Verification of the MANET Analysis Suite against its specification.

The repository ships the presentation shell `manet_analyzer_gui.py`; its
functions (`add_files`, `add_folder`, `initialize_analyzer`, the analysis
entry points and the comparison guards) are embedded directly from that
source.  The analysis engine (`MANETAnalyzer`, imported from
`manet_analyzer.py`) is not part of the repository snapshot; where a claim
needs it, the corresponding definition is modelled from the specification
and marked as such in its doc comment.

Numeric samples are modelled as rationals: the metric values the claims
reason about (means, minima, maxima, variances, relative differences) are
exact at the inputs considered, and finiteness of all samples is built in.
-/

namespace MANET

/-! ### Data model (spec section 3) -/

/-- Per-metric descriptive statistics.  `std_sq` is the population variance
(sum of squared deviations divided by `count`, not `count - 1`); the reported
standard deviation is its square root. -/
structure MetricStatistics where
  count : Nat
  mean : ℚ
  std_sq : ℚ
  min : ℚ
  max : ℚ
  deriving Repr, DecidableEq

/-- One simulation run: label, configuration parameters and a mapping from
metric name to its ordered sequence of numeric samples. -/
structure SimulationRecord where
  label : String
  configuration : List (String × ℚ)
  metrics : List (String × List ℚ)
  deriving Repr, DecidableEq

/-- A record is valid when every metric sequence is non-empty. -/
def validRecord (r : SimulationRecord) : Prop :=
  ∀ p ∈ r.metrics, p.2 ≠ ([] : List ℚ)

instance (r : SimulationRecord) : Decidable (validRecord r) :=
  List.decidableBAll _ r.metrics

/-! ### Statistics engine (modelled from the spec, section 4.3: the engine
source `manet_analyzer.py` is not in the repository snapshot) -/

/-- Modelled from the spec: arithmetic mean of a metric sample sequence. -/
def listMean (xs : List ℚ) : ℚ := xs.sum / xs.length

/-- Modelled from the spec: population variance, dividing by `count`
rather than `count - 1`. -/
def popVariance (xs : List ℚ) : ℚ :=
  (xs.map (fun x => (x - listMean xs) ^ 2)).sum / xs.length

/-- Minimum of a sample sequence (0 on the empty sequence, which a valid
record never produces). -/
def listMin : List ℚ → ℚ
  | [] => 0
  | x :: xs => xs.foldl min x

/-- Maximum of a sample sequence (0 on the empty sequence, which a valid
record never produces). -/
def listMax : List ℚ → ℚ
  | [] => 0
  | x :: xs => xs.foldl max x

/-- Modelled from the spec: the five descriptive statistics of one metric. -/
def summarizeMetric (xs : List ℚ) : MetricStatistics :=
  ⟨xs.length, listMean xs, popVariance xs, listMin xs, listMax xs⟩

/-- Summary of one loaded record: statistics per metric, plus `data_points`
as the total sample count across all metrics. -/
structure SimulationSummary where
  label : String
  configuration : List (String × ℚ)
  data_points : Nat
  metrics : List (String × MetricStatistics)
  deriving Repr, DecidableEq

/-- Modelled from the spec: `summarize(record)` computes per-metric
statistics and the total number of data points. -/
def summarize (r : SimulationRecord) : SimulationSummary :=
  ⟨r.label, r.configuration,
   (r.metrics.map (fun p => p.2.length)).sum,
   r.metrics.map (fun p => (p.1, summarizeMetric p.2))⟩

/-! ### Order lemmas for fold-based min and max -/

theorem foldl_min_le_init (xs : List ℚ) (a : ℚ) : xs.foldl min a ≤ a := by
  induction xs generalizing a with
  | nil => simp
  | cons x xs ih =>
    exact le_trans (ih (min a x)) (min_le_left a x)

theorem foldl_min_le_mem (xs : List ℚ) (a : ℚ) :
    ∀ x ∈ xs, xs.foldl min a ≤ x := by
  induction xs generalizing a with
  | nil => intro x hx; cases hx
  | cons y ys ih =>
    intro x hx
    rw [List.mem_cons] at hx
    rcases hx with rfl | hx
    · exact le_trans (foldl_min_le_init ys (min a x)) (min_le_right a x)
    · exact ih (min a y) x hx

theorem init_le_foldl_max (xs : List ℚ) (a : ℚ) : a ≤ xs.foldl max a := by
  induction xs generalizing a with
  | nil => simp
  | cons x xs ih =>
    exact le_trans (le_max_left a x) (ih (max a x))

theorem mem_le_foldl_max (xs : List ℚ) (a : ℚ) :
    ∀ x ∈ xs, x ≤ xs.foldl max a := by
  induction xs generalizing a with
  | nil => intro x hx; cases hx
  | cons y ys ih =>
    intro x hx
    rw [List.mem_cons] at hx
    rcases hx with rfl | hx
    · exact le_trans (le_max_right a x) (init_le_foldl_max ys (max a x))
    · exact ih (max a y) x hx

theorem listMin_le_mem (xs : List ℚ) (x : ℚ) (hx : x ∈ xs) : listMin xs ≤ x := by
  cases xs with
  | nil => cases hx
  | cons y ys =>
    rw [List.mem_cons] at hx
    rcases hx with rfl | hx
    · exact foldl_min_le_init ys x
    · exact foldl_min_le_mem ys y x hx

theorem mem_le_listMax (xs : List ℚ) (x : ℚ) (hx : x ∈ xs) : x ≤ listMax xs := by
  cases xs with
  | nil => cases hx
  | cons y ys =>
    rw [List.mem_cons] at hx
    rcases hx with rfl | hx
    · exact init_le_foldl_max ys x
    · exact mem_le_foldl_max ys y x hx

theorem sum_le_length_mul (xs : List ℚ) (b : ℚ) (h : ∀ x ∈ xs, x ≤ b) :
    xs.sum ≤ (xs.length : ℚ) * b := by
  induction xs with
  | nil => simp
  | cons x xs ih =>
    have hx : x ≤ b := h x (List.mem_cons_self x xs)
    have hs : xs.sum ≤ (xs.length : ℚ) * b :=
      ih (fun y hy => h y (List.mem_cons_of_mem x hy))
    have hc : ((xs.length + 1 : ℕ) : ℚ) * b = (xs.length : ℚ) * b + b := by
      push_cast
      ring
    simp only [List.sum_cons, List.length_cons, hc]
    linarith

theorem length_mul_le_sum (xs : List ℚ) (b : ℚ) (h : ∀ x ∈ xs, b ≤ x) :
    (xs.length : ℚ) * b ≤ xs.sum := by
  induction xs with
  | nil => simp
  | cons x xs ih =>
    have hx : b ≤ x := h x (List.mem_cons_self x xs)
    have hs : (xs.length : ℚ) * b ≤ xs.sum :=
      ih (fun y hy => h y (List.mem_cons_of_mem x hy))
    have hc : ((xs.length + 1 : ℕ) : ℚ) * b = (xs.length : ℚ) * b + b := by
      push_cast
      ring
    simp only [List.sum_cons, List.length_cons, hc]
    linarith

theorem listMean_le_listMax (xs : List ℚ) (h : xs ≠ []) :
    listMean xs ≤ listMax xs := by
  have hn : 0 < (xs.length : ℚ) := by
    have := List.length_pos.mpr h
    exact_mod_cast this
  have hsum : xs.sum ≤ (xs.length : ℚ) * listMax xs :=
    sum_le_length_mul xs (listMax xs) (fun x hx => mem_le_listMax xs x hx)
  rw [listMean, div_le_iff₀ hn]
  linarith

theorem listMin_le_listMean (xs : List ℚ) (h : xs ≠ []) :
    listMin xs ≤ listMean xs := by
  have hn : 0 < (xs.length : ℚ) := by
    have := List.length_pos.mpr h
    exact_mod_cast this
  have hsum : (xs.length : ℚ) * listMin xs ≤ xs.sum :=
    length_mul_le_sum xs (listMin xs) (fun x hx => listMin_le_mem xs x hx)
  rw [listMean, le_div_iff₀ hn]
  linarith

theorem popVariance_nonneg (xs : List ℚ) : 0 ≤ popVariance xs := by
  rw [popVariance]
  apply div_nonneg
  · apply List.sum_nonneg
    intro y hy
    rw [List.mem_map] at hy
    obtain ⟨x, _, rfl⟩ := hy
    positivity
  · positivity

/-! ### Assoc-list lookup helpers -/

theorem lookup_map_value {α β γ : Type} [BEq α] (f : β → γ) (m : α) :
    ∀ l : List (α × β),
      (l.map (fun p => (p.1, f p.2))).lookup m = (l.lookup m).map f := by
  intro l
  induction l with
  | nil => rfl
  | cons p l ih =>
    obtain ⟨k, v⟩ := p
    cases h : m == k <;> simp [List.lookup, h, ih]

theorem lookup_valid_nonempty (l : List (String × List ℚ))
    (h : ∀ p ∈ l, p.2 ≠ ([] : List ℚ)) (m : String) (xs : List ℚ)
    (hx : l.lookup m = some xs) : xs ≠ [] := by
  induction l with
  | nil => cases hx
  | cons p l ih =>
    obtain ⟨k, v⟩ := p
    rw [List.lookup] at hx
    cases hmk : m == k with
    | true =>
      rw [hmk] at hx
      simp at hx
      subst hx
      exact h (k, v) (List.mem_cons_self _ _)
    | false =>
      rw [hmk] at hx
      exact ih (fun q hq => h q (List.mem_cons_of_mem _ hq)) hx

/-- C1: for every valid record and every metric present in its summary,
the statistics satisfy min ≤ mean ≤ max, and the standard deviation — the
square root of the population variance `std_sq` — exists as a non-negative
real, i.e. std ≥ 0. -/
theorem summarize_stats_bounds (r : SimulationRecord) (hr : validRecord r)
    (m : String) (st : MetricStatistics)
    (hm : (summarize r).metrics.lookup m = some st) :
    st.min ≤ st.mean ∧ st.mean ≤ st.max ∧
      ∃ s : ℝ, 0 ≤ s ∧ s ^ 2 = (st.std_sq : ℝ) := by
  have hmap : (summarize r).metrics.lookup m
      = (r.metrics.lookup m).map summarizeMetric := by
    rw [summarize]
    exact lookup_map_value summarizeMetric m r.metrics
  rw [hmap] at hm
  rcases hlk : r.metrics.lookup m with _ | xs
  · rw [hlk] at hm; cases hm
  · rw [hlk] at hm
    simp at hm
    subst hm
    have hne : xs ≠ [] := lookup_valid_nonempty r.metrics hr m xs hlk
    refine ⟨listMin_le_listMean xs hne, listMean_le_listMax xs hne, ?_⟩
    refine ⟨Real.sqrt ((popVariance xs : ℚ) : ℝ), Real.sqrt_nonneg _, ?_⟩
    exact Real.sq_sqrt (by exact_mod_cast popVariance_nonneg xs)

/-- A concrete valid record used to witness C1. -/
def sampleRecord : SimulationRecord :=
  ⟨"A", [("num_nodes", 20)], [("throughput", [1, 2, 3])]⟩

theorem summarize_stats_bounds_witness :
    (summarizeMetric [1, 2, 3]).min ≤ (summarizeMetric [1, 2, 3]).mean ∧
      (summarizeMetric [1, 2, 3]).mean ≤ (summarizeMetric [1, 2, 3]).max ∧
      ∃ s : ℝ, 0 ≤ s ∧ s ^ 2 = ((summarizeMetric [1, 2, 3]).std_sq : ℝ) :=
  summarize_stats_bounds sampleRecord (by decide) "throughput"
    (summarizeMetric [1, 2, 3]) (by rfl)

/-! ### Comparison engine (modelled from the spec, section 4.4) -/

/-- Error raised by `compare` when fewer than two summaries are supplied. -/
inductive ComparisonError
  | insufficientData
  deriving Repr, DecidableEq

/-- Modelled from the spec: relative difference of a mean against the
baseline mean, `(mean_i - mean_baseline) / mean_baseline * 100`, reported
as an explicit `none` (undefined) instead of raising when the baseline
mean is zero. -/
def relDiff (base : ℚ) (x : ℚ) : Option ℚ :=
  if base = 0 then none else some ((x - base) / base * 100)

/-- Metric names appearing in a summary, in order. -/
def metricNames (s : SimulationSummary) : List String :=
  s.metrics.map Prod.fst

/-- Modelled from the spec: metrics present in all summaries (taken in the
order of the first summary); a metric absent from any one summary is
excluded. -/
def commonMetrics : List SimulationSummary → List String
  | [] => []
  | s :: ss =>
      (metricNames s).filter (fun m => ss.all (fun t => (t.metrics.lookup m).isSome))

/-- The (label, mean) pairs of one metric across the summaries, in summary
order. -/
def metricMeans (ss : List SimulationSummary) (m : String) : List (String × ℚ) :=
  ss.filterMap (fun s => (s.metrics.lookup m).map (fun st => (s.label, st.mean)))

/-- Stable insertion for a descending-by-mean ranking: an element is placed
before the first element whose mean does not exceed it, so earlier labels
stay ahead on ties. -/
def insertByMeanDesc (x : String × ℚ) : List (String × ℚ) → List (String × ℚ)
  | [] => [x]
  | y :: ys => if y.2 ≤ x.2 then x :: y :: ys else y :: insertByMeanDesc x ys

/-- Stable sort of (label, mean) pairs by descending mean. -/
def rankByMeanDesc : List (String × ℚ) → List (String × ℚ)
  | [] => []
  | x :: xs => insertByMeanDesc x (rankByMeanDesc xs)

/-- Per-metric comparison output: the ranking of labels by descending mean
and the baseline-relative percentage differences. -/
structure MetricComparison where
  ranking : List String
  diffs : List (String × Option ℚ)
  deriving Repr, DecidableEq

/-- Modelled from the spec: comparison of one common metric.  The baseline
is the first-loaded label, i.e. the mean of the first summary. -/
def compareMetric (ss : List SimulationSummary) (m : String) : MetricComparison :=
  let pairs := metricMeans ss m
  let base := ((pairs.head?).map Prod.snd).getD 0
  ⟨(rankByMeanDesc pairs).map Prod.fst,
   pairs.map (fun p => (p.1, relDiff base p.2))⟩

/-- Modelled from the spec: `compare` requires at least two summaries and
otherwise fails with `InsufficientData`; on success it reports, per common
metric, the ranking and the baseline-relative differences. -/
def compare (ss : List SimulationSummary) :
    Except ComparisonError (List (String × MetricComparison)) :=
  if ss.length < 2 then .error .insufficientData
  else .ok ((commonMetrics ss).map (fun m => (m, compareMetric ss m)))

/-- Record A of the three-record comparison scenario: throughput mean 10. -/
def summaryA : SimulationSummary := summarize ⟨"A", [], [("throughput", [10])]⟩

/-- Record B of the three-record comparison scenario: throughput mean 20. -/
def summaryB : SimulationSummary := summarize ⟨"B", [], [("throughput", [20])]⟩

/-- Record C of the three-record comparison scenario: throughput mean 15. -/
def summaryC : SimulationSummary := summarize ⟨"C", [], [("throughput", [15])]⟩

/-- C2: the reported relative difference is
`(mean_i - mean_baseline) / mean_baseline * 100` with the baseline the
first-loaded label, an explicit `none` when the baseline mean is zero; and
on the concrete scenario with throughput means 10, 20, 15 the differences
are 0 percent, 100 percent, 50 percent and the descending-by-mean ranking
is B, C, A. -/
theorem compare_baseline_relative (b x : ℚ) (hb : b ≠ 0) :
    relDiff b x = some ((x - b) / b * 100) ∧
    relDiff 0 x = none ∧
    compare [summaryA, summaryB, summaryC] =
      .ok [("throughput",
        ⟨["B", "C", "A"],
         [("A", some 0), ("B", some 100), ("C", some 50)]⟩)] := by
  refine ⟨by simp [relDiff, hb], by simp [relDiff], ?_⟩
  norm_num [compare, commonMetrics, metricNames, metricMeans, compareMetric,
    rankByMeanDesc, insertByMeanDesc, relDiff, summaryA, summaryB, summaryC,
    summarize, summarizeMetric, listMean, listMin, listMax, popVariance,
    List.lookup, List.filter, List.filterMap, List.all]

theorem compare_baseline_relative_witness :
    relDiff 10 20 = some ((20 - 10) / 10 * 100) ∧ relDiff 0 20 = none :=
  ⟨(compare_baseline_relative 10 20 (by norm_num)).1,
   (compare_baseline_relative 10 20 (by norm_num)).2.1⟩

/-! ### Comparison guards in the shell (embedded from
`manet_analyzer_gui.py`) -/

/-- From `generate_comparison_plots` (src lines 801-808): the comparison
plot path proceeds past the guard only when at least 2 simulations are
loaded, otherwise it warns and returns before starting any work. -/
def generateComparisonPlotsProceeds (simCount : Nat) : Bool :=
  !(decide (simCount < 2))

/-- From `_run_full_analysis_thread` (src lines 570-589): the comparison
branch runs only when more than one simulation is loaded. -/
def fullAnalysisComparisonRuns (simCount : Nat) : Bool :=
  decide (1 < simCount)

/-- C3: `compare` fails with `InsufficientData` for fewer than 2 summaries,
and both shell call sites check the at-least-2 precondition before invoking
the comparison path. -/
theorem compare_insufficient (ss : List SimulationSummary)
    (h : ss.length < 2) :
    compare ss = .error .insufficientData ∧
    generateComparisonPlotsProceeds ss.length = false ∧
    fullAnalysisComparisonRuns ss.length = false := by
  refine ⟨by simp [compare, h], ?_, ?_⟩
  · simp [generateComparisonPlotsProceeds, h]
  · simp [fullAnalysisComparisonRuns]
    omega

theorem compare_insufficient_witness :
    compare [summaryA] = .error .insufficientData ∧
    generateComparisonPlotsProceeds 1 = false ∧
    fullAnalysisComparisonRuns 1 = false := by
  have h := compare_insufficient [summaryA] (by decide)
  simpa using h

/-! ### Batch loading loop of the shell (embedded from
`manet_analyzer_gui.py`, `initialize_analyzer`, src lines 488-515) -/

theorem length_filter_partition {α : Type} (p : α → Bool) (l : List α) :
    (l.filter p).length + (l.filter (fun a => !(p a))).length = l.length := by
  induction l with
  | nil => rfl
  | cons a l ih =>
    by_cases h : p a = true
    · simp [List.filter_cons, h]
      omega
    · rw [Bool.not_eq_true] at h
      simp [List.filter_cons, h]
      omega

/-- One iteration of the batch loop: a successful load increments the
loaded count, a failed load appends the file name (its basename in the
source) to the failed list; either way the loop moves on to the next
file. -/
def batchStep (basename : String → String) (loadSim : String → Bool)
    (acc : Nat × List String) (f : String) : Nat × List String :=
  if loadSim f then (acc.1 + 1, acc.2) else (acc.1, acc.2 ++ [basename f])

/-- From `initialize_analyzer` (src lines 488-502): fold the per-file
load results over the whole batch into (loaded count, failed files). -/
def initAnalyzerBatch (basename : String → String) (loadSim : String → Bool)
    (files : List String) : Nat × List String :=
  files.foldl (batchStep basename loadSim) (0, [])

theorem initAnalyzerBatch_go (basename : String → String)
    (loadSim : String → Bool) (files : List String) (n : Nat)
    (acc : List String) :
    files.foldl (batchStep basename loadSim) (n, acc)
      = (n + (files.filter loadSim).length,
         acc ++ (files.filter (fun f => !(loadSim f))).map basename) := by
  induction files generalizing n acc with
  | nil => simp
  | cons f fs ih =>
    by_cases h : loadSim f = true
    · simp [batchStep, h, ih]
      omega
    · rw [Bool.not_eq_true] at h
      simp [batchStep, h, ih]

/-- C4: the batch-driving loop never aborts on one failing load: it
processes every identifier, and the (succeeded count, failed list) it
produces partitions the whole batch — succeeded plus failed accounts for
every file. -/
theorem initAnalyzerBatch_partition (basename : String → String)
    (loadSim : String → Bool) (files : List String) :
    (initAnalyzerBatch basename loadSim files).1
      = (files.filter loadSim).length ∧
    (initAnalyzerBatch basename loadSim files).2
      = (files.filter (fun f => !(loadSim f))).map basename ∧
    (initAnalyzerBatch basename loadSim files).1
      + (initAnalyzerBatch basename loadSim files).2.length
      = files.length := by
  have hgo := initAnalyzerBatch_go basename loadSim files 0 []
  rw [initAnalyzerBatch, hgo]
  refine ⟨by simp, by simp, ?_⟩
  simp only [List.nil_append, Nat.zero_add, List.length_map]
  exact length_filter_partition loadSim files

/-! ### Report generator (modelled from the spec, section 4.6) and the
report-format selector of the shell -/

/-- Error raised by report generation on an unsupported format. -/
inductive ReportError
  | unsupportedFormat
  deriving Repr, DecidableEq

/-- Modelled from the spec: the accepted report formats. -/
def supportedReportFormats : List String := ["html", "markdown", "plain-text"]

/-- Modelled from the spec: `generate(summaries, format, ...)` returns the
report document together with the list of files written to storage; an
unsupported format fails with `UnsupportedFormat` and writes nothing, so no
partial file is left. -/
def generateReport (fmt : String) :
    Except ReportError String × List String :=
  if fmt ∈ supportedReportFormats
  then (.ok ("report." ++ fmt), ["report." ++ fmt])
  else (.error .unsupportedFormat, [])

/-- From `create_left_panel` (src lines 195-198): the values offered by the
report format selector. -/
def reportFormatChoices : List String := ["html", "markdown", "txt"]

/-- From `_run_full_analysis_thread` (src lines 596-599): the selected
format value is passed through to report generation unchanged. -/
def reportFormatPassed (selected : String) : String := selected

/-- C5: report generation accepts exactly the formats html, markdown and
plain-text; any other value (such as xml) fails with `UnsupportedFormat`
and leaves no file on storage; the shell offers html, markdown and txt and
passes the selected value through unchanged. -/
theorem generateReport_formats (fmt : String) :
    ((generateReport fmt).1 = Except.error ReportError.unsupportedFormat
       ↔ fmt ∉ supportedReportFormats) ∧
    generateReport "xml" = (.error .unsupportedFormat, []) ∧
    reportFormatChoices = ["html", "markdown", "txt"] ∧
    reportFormatPassed fmt = fmt := by
  refine ⟨?_, by rfl, rfl, rfl⟩
  by_cases h : fmt ∈ supportedReportFormats <;> simp [generateReport, h]

theorem generateReport_formats_witness :
    generateReport "xml" = (.error .unsupportedFormat, []) ∧
    reportFormatPassed "xml" = "xml" :=
  ⟨(generateReport_formats "xml").2.1, (generateReport_formats "xml").2.2.2⟩

/-! ### Dataset store and batch summaries (modelled from the spec,
sections 4.2 and 4.3) -/

/-- Modelled from the spec: `summarize_all` maps the insertion-ordered
store (an ordered label-to-record sequence) to the label-to-summary
sequence, one summary per record, in the same order. -/
def summarizeAll (store : List (String × SimulationRecord)) :
    List (String × SimulationSummary) :=
  store.map (fun p => (p.1, summarize p.2))

/-- C6: `summarize_all` preserves the insertion order of the store: the
sequence of labels of the output equals the sequence of labels of the
store, and the output is a pure function of the store, hence identical on
every run for the same load sequence. -/
theorem summarizeAll_preserves_order
    (store : List (String × SimulationRecord)) :
    (summarizeAll store).map Prod.fst = store.map Prod.fst ∧
    (summarizeAll store).length = store.length := by
  constructor
  · rw [summarizeAll, List.map_map]
    rfl
  · rw [summarizeAll, List.length_map]

/-! ### Record loader (modelled from the spec, section 4.1) -/

/-- Loader failure kinds. -/
inductive LoadError
  | malformed
  | missingSection
  | emptyMetric
  deriving Repr, DecidableEq

/-- A source document: either unparsable, or a parsed object whose
configuration and metrics sections may each be missing. -/
inductive ResultDocument
  | unparsable
  | parsed (configuration : Option (List (String × ℚ)))
           (metrics : Option (List (String × List ℚ)))
  deriving Repr, DecidableEq

/-- Modelled from the spec: `load(source)` parses a document into a
validated record.  It fails with `Malformed` when the document cannot be
parsed, `MissingSection` when the configuration or metrics section is
absent, and `EmptyMetric` when a declared metric has zero samples.  It
takes no store and returns only the parsed record: it has no side effect
on the Dataset Store. -/
def load (label : String) (doc : ResultDocument) :
    Except LoadError SimulationRecord :=
  match doc with
  | .unparsable => .error .malformed
  | .parsed none _ => .error .missingSection
  | .parsed _ none => .error .missingSection
  | .parsed (some cfg) (some ms) =>
      if ms.any (fun p => p.2.isEmpty) then .error .emptyMetric
      else .ok ⟨label, cfg, ms⟩

/-- Modelled from the spec: the store add operation, appending one labelled
record — the only way a record enters the store. -/
def storeAdd (store : List (String × SimulationRecord)) (label : String)
    (r : SimulationRecord) : List (String × SimulationRecord) :=
  store ++ [(label, r)]

/-- Modelled from the spec: the caller protocol around `load` — the record
is added to the store by the caller via `storeAdd` only when the load
succeeded; a failed load performs no store operation. -/
def loadIntoStore (store : List (String × SimulationRecord)) (label : String)
    (doc : ResultDocument) :
    List (String × SimulationRecord) × Option LoadError :=
  match load label doc with
  | .ok r => (storeAdd store label r, none)
  | .error e => (store, some e)

/-- The scenario document of C7: a record whose throughput metric is the
empty list. -/
def emptyThroughputDoc : ResultDocument :=
  .parsed (some []) (some [("throughput", [])])

/-- C7: `load` never mutates the store — it takes no store and only returns
a result — so after any failing load the store contents and size are
unchanged; in particular a record whose throughput metric is empty fails
with `EmptyMetric`. -/
theorem load_failure_frame (store : List (String × SimulationRecord))
    (label : String) (doc : ResultDocument) (e : LoadError)
    (h : load label doc = .error e) :
    (loadIntoStore store label doc).1 = store ∧
    (loadIntoStore store label doc).1.length = store.length ∧
    load "A" emptyThroughputDoc = .error .emptyMetric := by
  rw [loadIntoStore, h]
  exact ⟨rfl, rfl, by rfl⟩

theorem load_failure_frame_witness :
    (loadIntoStore [("B", sampleRecord)] "A" emptyThroughputDoc).1
      = [("B", sampleRecord)] ∧
    load "A" emptyThroughputDoc = .error .emptyMetric :=
  ⟨(load_failure_frame [("B", sampleRecord)] "A" emptyThroughputDoc
      .emptyMetric (by rfl)).1,
   (load_failure_frame [("B", sampleRecord)] "A" emptyThroughputDoc
      .emptyMetric (by rfl)).2.2⟩

/-- C8: `load` is deterministic on failures — two loads of the same
malformed document yield the same `LoadError` kind. -/
theorem load_error_deterministic (label : String) (doc : ResultDocument)
    (e₁ e₂ : LoadError) (h₁ : load label doc = .error e₁)
    (h₂ : load label doc = .error e₂) : e₁ = e₂ := by
  rw [h₁] at h₂
  cases h₂
  rfl

theorem load_error_deterministic_witness :
    load "A" ResultDocument.unparsable = .error .malformed ∧
    LoadError.malformed = LoadError.malformed :=
  ⟨rfl, load_error_deterministic "A" ResultDocument.unparsable
    LoadError.malformed LoadError.malformed rfl rfl⟩

/-! ### File management of the shell (embedded from
`manet_analyzer_gui.py`, `add_files` src lines 389-413 and `add_folder`
src lines 415-437) -/

/-- The file panel state: the `loaded_files` path list and the file tree
rows (one display name per loaded path). -/
structure FilePanel where
  loaded_files : List String
  file_tree : List String
  deriving Repr, DecidableEq

/-- From `add_files` (src lines 396-407): each selected path is skipped
when already present in `loaded_files`, otherwise appended to the list and
inserted into the file tree under its base name. -/
def add_files (basename : String → String) (s : FilePanel)
    (files : List String) : FilePanel :=
  files.foldl
    (fun s f =>
      if f ∈ s.loaded_files then s
      else ⟨s.loaded_files ++ [f], s.file_tree ++ [basename f]⟩)
    s

/-- From `add_folder` (src lines 422-431): the json files of the folder go
through the same present-check and append as `add_files`. -/
def add_folder (basename : String → String) (s : FilePanel)
    (jsonFiles : List String) : FilePanel :=
  jsonFiles.foldl
    (fun s f =>
      if f ∈ s.loaded_files then s
      else ⟨s.loaded_files ++ [f], s.file_tree ++ [basename f]⟩)
    s

/-- A shell file operation: one Add Files selection or one Add Folder
scan. -/
inductive FileOp
  | addFilesOp (files : List String)
  | addFolderOp (jsonFiles : List String)

/-- Apply one file operation to the panel state. -/
def applyFileOp (basename : String → String) (s : FilePanel) :
    FileOp → FilePanel
  | .addFilesOp fs => add_files basename s fs
  | .addFolderOp fs => add_folder basename s fs

/-- Apply a sequence of file operations, starting from the given state. -/
def applyFileOps (basename : String → String) (s : FilePanel)
    (ops : List FileOp) : FilePanel :=
  ops.foldl (applyFileOp basename) s

theorem add_files_nodup (basename : String → String) (files : List String) :
    ∀ s : FilePanel, s.loaded_files.Nodup →
      (add_files basename s files).loaded_files.Nodup := by
  induction files with
  | nil => intro s hs; exact hs
  | cons f fs ih =>
    intro s hs
    rw [add_files, List.foldl_cons]
    by_cases h : f ∈ s.loaded_files
    · rw [if_pos h]
      exact ih s hs
    · rw [if_neg h]
      apply ih
      rw [List.nodup_append]
      refine ⟨hs, List.nodup_singleton f, ?_⟩
      intro a ha hf
      rw [List.mem_singleton] at hf
      subst hf
      exact h ha

theorem add_folder_eq_add_files (basename : String → String) (s : FilePanel)
    (files : List String) :
    add_folder basename s files = add_files basename s files := rfl

theorem add_files_noop (basename : String → String) (files : List String) :
    ∀ s : FilePanel, (∀ f ∈ files, f ∈ s.loaded_files) →
      add_files basename s files = s := by
  induction files with
  | nil => intro s _; rfl
  | cons f fs ih =>
    intro s hall
    rw [add_files, List.foldl_cons,
        if_pos (hall f (List.mem_cons_self f fs))]
    exact ih s (fun g hg => hall g (List.mem_cons_of_mem f hg))

theorem applyFileOps_nodup (basename : String → String) (ops : List FileOp) :
    ∀ s : FilePanel, s.loaded_files.Nodup →
      (applyFileOps basename s ops).loaded_files.Nodup := by
  induction ops with
  | nil => intro s hs; exact hs
  | cons op ops ih =>
    intro s hs
    rw [applyFileOps, List.foldl_cons]
    apply ih
    cases op with
    | addFilesOp fs => exact add_files_nodup basename fs s hs
    | addFolderOp fs => exact add_files_nodup basename fs s hs

/-- C9: the loaded-file list stays duplicate-free under every sequence of
Add Files and Add Folder operations starting from the empty panel, and
adding only already-present paths leaves the whole panel — list and file
tree — unchanged. -/
theorem loaded_files_invariant (basename : String → String)
    (ops : List FileOp) (s : FilePanel) (files : List String)
    (hs : s.loaded_files.Nodup) (hall : ∀ f ∈ files, f ∈ s.loaded_files) :
    (applyFileOps basename ⟨[], []⟩ ops).loaded_files.Nodup ∧
    (add_files basename s files).loaded_files.Nodup ∧
    add_files basename s files = s ∧
    add_folder basename s files = s := by
  refine ⟨applyFileOps_nodup basename ops ⟨[], []⟩ List.nodup_nil, ?_, ?_, ?_⟩
  · exact add_files_nodup basename files s hs
  · exact add_files_noop basename files s hall
  · rw [add_folder_eq_add_files]
    exact add_files_noop basename files s hall

theorem loaded_files_invariant_witness :
    (applyFileOps id ⟨[], []⟩
        [.addFilesOp ["a", "b", "a"], .addFolderOp ["b"]]).loaded_files.Nodup ∧
    (add_files id ⟨["a", "b"], ["a", "b"]⟩ ["a"]).loaded_files.Nodup ∧
    add_files id ⟨["a", "b"], ["a", "b"]⟩ ["a"] = ⟨["a", "b"], ["a", "b"]⟩ ∧
    add_folder id ⟨["a", "b"], ["a", "b"]⟩ ["a"] = ⟨["a", "b"], ["a", "b"]⟩ :=
  loaded_files_invariant id [.addFilesOp ["a", "b", "a"], .addFolderOp ["b"]]
    ⟨["a", "b"], ["a", "b"]⟩ ["a"] (by decide) (by decide)

/-! ### Analyzer initialisation and the analysis entry points (embedded
from `manet_analyzer_gui.py`, src lines 477-529, 717-720, 756-808 and
1046-1049) -/

/-- The engine object held by the shell: its loaded simulations.  The
per-file load outcome is abstracted as a boolean oracle `loadSim`. -/
structure AnalyzerState where
  simulations : List String
  deriving Repr, DecidableEq

/-- From `initialize_analyzer` (src lines 477-521): with no loaded files it
reports an error and returns false, leaving the previous analyzer object in
place and starting no work; otherwise it constructs a brand-new analyzer,
re-loads every file of `loaded_files` into it, and returns true exactly
when at least one simulation loaded. -/
def initAnalyzer (loadSim : String → Bool) (prev : Option AnalyzerState)
    (loaded_files : List String) : Option AnalyzerState × Bool :=
  if loaded_files.isEmpty then (prev, false)
  else
    let a : AnalyzerState := ⟨loaded_files.filter loadSim⟩
    if a.simulations.isEmpty then (some a, false) else (some a, true)

/-- From `run_full_analysis` (src lines 523-529): bail out unless
`initialize_analyzer` succeeded, then start the analysis work. -/
def run_full_analysis (loadSim : String → Bool) (prev : Option AnalyzerState)
    (loaded_files : List String) : Option AnalyzerState × Bool :=
  initAnalyzer loadSim prev loaded_files

/-- From `show_quick_stats` (src lines 717-720): bail out unless
`initialize_analyzer` succeeded, then compute the statistics. -/
def show_quick_stats (loadSim : String → Bool) (prev : Option AnalyzerState)
    (loaded_files : List String) : Option AnalyzerState × Bool :=
  initAnalyzer loadSim prev loaded_files

/-- From `generate_plots_only` (src lines 1046-1058): bail out unless
`initialize_analyzer` succeeded, then start plot generation. -/
def generate_plots_only (loadSim : String → Bool) (prev : Option AnalyzerState)
    (loaded_files : List String) : Option AnalyzerState × Bool :=
  initAnalyzer loadSim prev loaded_files

/-- From `generate_performance_plots` (src lines 756-766): bail out unless
`initialize_analyzer` succeeded, then start plot generation. -/
def generate_performance_plots (loadSim : String → Bool)
    (prev : Option AnalyzerState) (loaded_files : List String) :
    Option AnalyzerState × Bool :=
  initAnalyzer loadSim prev loaded_files

/-- Number of simulations held by the analyzer object (0 when absent). -/
def simCount : Option AnalyzerState → Nat
  | none => 0
  | some st => st.simulations.length

/-- From `generate_comparison_plots` (src lines 801-815): bail out unless
`initialize_analyzer` succeeded, additionally require at least 2 loaded
simulations, then start comparison plot generation. -/
def generate_comparison_plots (loadSim : String → Bool)
    (prev : Option AnalyzerState) (loaded_files : List String) :
    Option AnalyzerState × Bool :=
  let r := initAnalyzer loadSim prev loaded_files
  if r.2 && !(decide (simCount r.1 < 2)) then (r.1, true) else (r.1, false)

theorem initAnalyzer_empty (loadSim : String → Bool)
    (prev : Option AnalyzerState) :
    initAnalyzer loadSim prev [] = (prev, false) := rfl

theorem initAnalyzer_fresh (loadSim : String → Bool)
    (prev : Option AnalyzerState) (files : List String)
    (h : (initAnalyzer loadSim prev files).2 = true) :
    (initAnalyzer loadSim prev files).1 = some ⟨files.filter loadSim⟩ := by
  by_cases hf : files.isEmpty
  · rw [initAnalyzer, if_pos hf] at h
    cases h
  · rw [initAnalyzer, if_neg hf] at h ⊢
    by_cases hsim : (files.filter loadSim).isEmpty
    · rw [if_pos hsim] at h
      cases h
    · rw [if_neg hsim]

/-- C10: every analysis entry point runs `initialize_analyzer` first: with
an empty loaded-file list each entry point returns at once, keeping the
previous analyzer object and starting no work; and whenever work starts,
the analyzer in use is the brand-new one built from the current
loaded-file list alone, so no analyzer state carries over from a previous
action. -/
theorem entry_points_fresh_analyzer (loadSim : String → Bool)
    (prev : Option AnalyzerState) (files : List String) :
    (files = [] →
      run_full_analysis loadSim prev files = (prev, false) ∧
      show_quick_stats loadSim prev files = (prev, false) ∧
      generate_plots_only loadSim prev files = (prev, false) ∧
      generate_performance_plots loadSim prev files = (prev, false) ∧
      generate_comparison_plots loadSim prev files = (prev, false)) ∧
    ((run_full_analysis loadSim prev files).2 = true →
      (run_full_analysis loadSim prev files).1
        = some ⟨files.filter loadSim⟩) ∧
    ((show_quick_stats loadSim prev files).2 = true →
      (show_quick_stats loadSim prev files).1
        = some ⟨files.filter loadSim⟩) ∧
    ((generate_plots_only loadSim prev files).2 = true →
      (generate_plots_only loadSim prev files).1
        = some ⟨files.filter loadSim⟩) ∧
    ((generate_performance_plots loadSim prev files).2 = true →
      (generate_performance_plots loadSim prev files).1
        = some ⟨files.filter loadSim⟩) ∧
    ((generate_comparison_plots loadSim prev files).2 = true →
      (generate_comparison_plots loadSim prev files).1
        = some ⟨files.filter loadSim⟩) := by
  constructor
  · rintro rfl
    refine ⟨rfl, rfl, rfl, rfl, ?_⟩
    simp [generate_comparison_plots, initAnalyzer_empty]
  · refine ⟨initAnalyzer_fresh loadSim prev files,
      initAnalyzer_fresh loadSim prev files,
      initAnalyzer_fresh loadSim prev files,
      initAnalyzer_fresh loadSim prev files, ?_⟩
    intro h
    simp only [generate_comparison_plots] at h ⊢
    by_cases hc : ((initAnalyzer loadSim prev files).2
        && !(decide (simCount (initAnalyzer loadSim prev files).1 < 2))) = true
    · simp only [hc, if_true]
      have h2 : (initAnalyzer loadSim prev files).2 = true :=
        (Bool.and_eq_true _ _).mp hc |>.1
      exact initAnalyzer_fresh loadSim prev files h2
    · rw [Bool.not_eq_true] at hc
      simp only [hc, if_false] at h
      cases h

theorem entry_points_fresh_analyzer_witness :
    run_full_analysis (fun _ => true) (some ⟨["stale"]⟩) [] =
      (some ⟨["stale"]⟩, false) ∧
    (run_full_analysis (fun _ => true) (some ⟨["stale"]⟩) ["a", "b"]).1
      = some ⟨["a", "b"]⟩ ∧
    (generate_comparison_plots (fun _ => true) (some ⟨["stale"]⟩)
        ["a", "b"]).1 = some ⟨["a", "b"]⟩ := by
  have h0 := entry_points_fresh_analyzer (fun _ => true)
    (some ⟨["stale"]⟩) ([] : List String)
  have h2 := entry_points_fresh_analyzer (fun _ => true)
    (some ⟨["stale"]⟩) ["a", "b"]
  refine ⟨(h0.1 rfl).1, ?_, ?_⟩
  · have := h2.2.1 (by rfl)
    simpa using this
  · have := h2.2.2.2.2.2 (by rfl)
    simpa using this

end MANET
